import Mathlib

/-!
Shallow embedding of the streaming-normalization and incremental-rendering
core of the llm-stream repository: the render loop `handle_stream` of
`crates/llm_stream/src/prelude.rs` and the per-backend delta adapters of
`lib/llm_stream/src/{anthropic,mistral,ollama}.rs`.
-/

namespace LlmStream

/-! ### Rust `str::lines` semantics

`str::lines` splits at `\n`, strips a carriage return that immediately
precedes a `\n`, and treats the final line ending as optional (a final
fragment without a trailing `\n` is kept verbatim, carriage return
included). -/

/-- Strip one trailing carriage return from a line that ended in `\r\n`. -/
def stripCR (l : List Char) : List Char :=
  if l.getLast? = some '\r' then l.dropLast else l

/-- Split a character list at `'\n'`, accumulating the current line in `acc`. -/
def linesAux : List Char → List Char → List (List Char)
  | [], acc => if acc = [] then [] else [acc]
  | c :: rest, acc =>
      if c = '\n' then stripCR acc :: linesAux rest []
      else linesAux rest (acc ++ [c])

/-- Rust `str::lines` on a Lean string. -/
def rustLines (s : String) : List String :=
  (linesAux s.data []).map String.mk

/-- Rust `str::trim`: remove leading and trailing Unicode whitespace. -/
def rustTrim (s : String) : String :=
  String.mk (((s.data.dropWhile Char.isWhitespace).reverse.dropWhile
    Char.isWhitespace).reverse)

/-! ### Data model of the render loop (`handle_stream`, prelude.rs) -/

/-- `ConversationRole` (conversation.rs). -/
inductive ConversationRole
  | user
  | assistant
  | system
deriving DecidableEq, Repr

/-- `ConversationMessage` (conversation.rs). -/
structure ConversationMessage where
  role : ConversationRole
  content : String
deriving DecidableEq, Repr

/-- The transport error variants that `handle_stream` distinguishes:
`llm_stream::error::Error::EventsourceClient(EventsourceError::Eof)` is
matched by name; every other error value is handled by the catch-all arm.
(The error enum itself lives in the library crate's error module; only the
two classes the render loop distinguishes are modelled.) -/
inductive EventsourceError
  | eof
  | other (msg : String)
deriving DecidableEq, Repr

/-- `llm_stream::error::Error` as consumed by the render loop. -/
inductive Error
  | eventsourceClient (e : EventsourceError)
  | otherError (msg : String)
deriving DecidableEq, Repr

/-- One item obtained from `stream.try_next().await` in the render loop:
`Ok(Some(text))` is `frag text`, `Err(e)` is `err e`; reaching the end of
the item list models `Ok(None)`. -/
inductive Item
  | frag (text : String)
  | err (e : Error)
deriving DecidableEq, Repr

/-- A terminal side effect issued by the render loop, in program order. -/
inductive TermCmd
  | spinnerStop
  | moveToColumn (n : Nat)
  | write (s : String)
  | flush
deriving DecidableEq, Repr

/-- The subset of `Args` consulted by `handle_stream` (args.rs). -/
structure Args where
  quiet : Option Bool
  no_cache : Bool
  fork : Bool
  fromArg : Option String
  parent : Option String
  config_dir : Option String
  conversation : List ConversationMessage
deriving DecidableEq, Repr

/-- Ambient facts of one `handle_stream` run: whether stdout is a terminal
(`atty::is`), the syntax highlighter produced by
`CustomPrinter::new(&language, theme)` applied over the accumulated bytes
(a deterministic function for a fixed language and theme; the printer
module is not interpreted further), and the id produced by `xid::new()`. -/
structure RenderEnv where
  isTerminal : Bool
  highlight : String → String
  freshId : String

/-- Mutable state of the render loop. `accumulated` models
`accumulated_content_bytes`: every fragment is a Rust `String` (valid
UTF-8), so the byte buffer is represented by the string it decodes to, and
`String::from_utf8_lossy` on it is the identity. `trace` records the
terminal writes issued so far. -/
structure RenderState where
  spinner : Bool
  previousOutput : String
  accumulated : String
  trace : List TermCmd
deriving DecidableEq, Repr

/-- Initial spinner presence (prelude.rs lines 28-35):
`args.quiet.is_none() || (args.quiet == Some(false) && is_terminal)`. -/
def initialSpinner (quiet : Option Bool) (isTerminal : Bool) : Bool :=
  quiet.isNone || (quiet == some false && isTerminal)

/-- The terminal writes of the spinner-clearing block (prelude.rs lines
45-52 and 89-96): stop the spinner, flush, move to column 0, overwrite
with 22 blanks, move to column 0 again. -/
def spinnerClearTrace : List TermCmd :=
  [TermCmd.spinnerStop, TermCmd.flush, TermCmd.moveToColumn 0,
   TermCmd.write "                      ", TermCmd.moveToColumn 0]

/-- `if is_terminal && sp.is_some() { ... }`: clear the spinner once. -/
def clearSpinner (isTerminal : Bool) (s : RenderState) : RenderState :=
  if isTerminal && s.spinner then
    { s with spinner := false, trace := s.trace ++ spinnerClearTrace }
  else s

/-- The skip count of prelude.rs lines 67-73:
`if previous_output.lines().count() == 0 { 0 } else { count - 1 }`. -/
def skipCount (previousOutput : String) : Nat :=
  if (rustLines previousOutput).length = 0 then 0
  else (rustLines previousOutput).length - 1

/-- One `Ok(Some(text))` iteration of the render loop (prelude.rs lines
44-83): clear the spinner if present; on non-terminal output write the raw
fragment and flush (`continue`); otherwise append the fragment, re-run the
highlighter over the whole buffer, skip the settled lines of the previous
output, and rewrite from column 0. -/
def processFrag (env : RenderEnv) (s : RenderState) (text : String) : RenderState :=
  let s := clearSpinner env.isTerminal s
  if !env.isTerminal then
    { s with trace := s.trace ++ [TermCmd.write text, TermCmd.flush] }
  else
    let accumulated := s.accumulated ++ text
    let output := env.highlight accumulated
    let unprinted :=
      String.intercalate "\n" ((rustLines output).drop (skipCount s.previousOutput))
    { s with
        accumulated := accumulated
        previousOutput := output
        trace := s.trace ++ [TermCmd.moveToColumn 0, TermCmd.write unprinted, TermCmd.flush] }

/-- The render loop (prelude.rs lines 40-100): end of the item list is
`Ok(None)` (break); an `Eof` eventsource error also breaks; any other
error clears the spinner and returns the error. -/
def runLoop (env : RenderEnv) : RenderState → List Item → RenderState × Except Error Unit
  | s, [] => (s, Except.ok ())
  | s, Item.frag text :: rest => runLoop env (processFrag env s text) rest
  | s, Item.err (Error.eventsourceClient EventsourceError.eof) :: _ => (s, Except.ok ())
  | s, Item.err e :: _ => (clearSpinner env.isTerminal s, Except.error e)

/-- Observable outcome of one `handle_stream` run. -/
structure StreamResult where
  state : RenderState
  result : Except Error Unit
  conversation : List ConversationMessage
  cacheWrite : Option String
deriving Repr

/-- The state of the render loop before the first iteration (prelude.rs
lines 23-35): empty previous output, empty byte buffer, spinner presence
per the quiet flag. -/
def initState (env : RenderEnv) (args : Args) : RenderState :=
  { spinner := initialSpinner args.quiet env.isTerminal
    previousOutput := ""
    accumulated := ""
    trace := [] }

/-- `handle_stream` (prelude.rs lines 18-134): run the render loop; on an
error return it before any caching; on success, unless `no_cache`, append
the lossily decoded, trimmed accumulated reply as the assistant message and
write the cache file named by the fork/from id logic. -/
def handle_stream (env : RenderEnv) (args : Args) (items : List Item) : StreamResult :=
  let r := runLoop env (initState env args) items
  match r.2 with
  | Except.error e =>
      { state := r.1, result := Except.error e
        conversation := args.conversation, cacheWrite := none }
  | Except.ok () =>
      if args.no_cache then
        { state := r.1, result := Except.ok ()
          conversation := args.conversation, cacheWrite := none }
      else
        let id := if args.fork then env.freshId else args.fromArg.getD env.freshId
        let conversation := args.conversation ++
          [{ role := ConversationRole.assistant, content := rustTrim r.1.accumulated }]
        let cacheFile :=
          (args.config_dir.getD "~/.config/llm-stream") ++ "/cache/" ++ id ++ ".toml"
        { state := r.1, result := Except.ok ()
          conversation := conversation, cacheWrite := some cacheFile }

/-- Concatenation of all bytes written by a trace. -/
def writtenText : List TermCmd → String
  | [] => ""
  | TermCmd.write s :: rest => s ++ writtenText rest
  | _ :: rest => writtenText rest

/-- A command a plain byte-passthrough may issue: a raw write or a flush. -/
def rawPassthrough : TermCmd → Bool
  | TermCmd.write _ => true
  | TermCmd.flush => true
  | _ => false

/-! ### Backend adapters (lib/llm_stream/src)

Each adapter's `Client::delta` maps the eventsource stream of
`Result<SSE, _>` items through `map_err(Error::from).map_ok(closure)`.
The closure decodes the event's data with `serde_json::from_str`; the
decode itself is the external serde library, modelled as a function
`parse` from the raw event payload to the decoded event, `none` standing
for a decode failure. -/

/-- `eventsource_client::SSE`, with the raw event payload abstracted. -/
inductive SSE (α : Type)
  | connected
  | event (data : α)
  | comment (text : String)
deriving DecidableEq, Repr

/-- The reconnect policy configured by a `ClientBuilder::reconnect` call:
`ReconnectOptions::reconnect(b).retry_initial(r).delay(d).backoff_factor(f).delay_max(m)`.
Durations are in whole seconds, as configured. -/
structure ReconnectOptions where
  reconnect : Bool
  retry_initial : Bool
  delaySecs : Nat
  backoff_factor : Nat
  delayMaxSecs : Nat
deriving DecidableEq, Repr

/-- Modelled from the spec: the delay semantics of `ReconnectPolicy` (the
backoff computation lives in the external eventsource-client crate, not in
this repository). §3: delay before attempt k equals
min(initial_delay × multiplier^(k-1), max_delay). -/
def delayBeforeAttempt (o : ReconnectOptions) (k : Nat) : Nat :=
  min (o.delaySecs * o.backoff_factor ^ (k - 1)) o.delayMaxSecs

namespace Anthropic

/-- `Usage` (anthropic.rs). -/
structure Usage where
  input_tokens : Option Nat
  output_tokens : Option Nat
deriving DecidableEq, Repr

/-- `Content` (anthropic.rs). -/
structure Content where
  type : String
  text : Option String
deriving DecidableEq, Repr

/-- `MessageEventResponse` (anthropic.rs). -/
structure MessageEventResponse where
  id : String
  type : String
  role : String
  content : List Content
  model : String
  stop_reason : Option String
  stop_sequence : Option String
  usage : Usage
deriving DecidableEq, Repr

/-- `Delta` (anthropic.rs). -/
structure Delta where
  type : Option String
  text : Option String
  stop_reason : Option String
  end_turn : Option String
deriving DecidableEq, Repr

/-- `MessageEventType` (anthropic.rs). -/
inductive MessageEventType
  | error
  | messageStart
  | messageDelta
  | messageStop
  | ping
  | contentBlockStart
  | contentBlockDelta
  | contentBlockStop
  | comment
deriving DecidableEq, Repr

/-- `MessageEvent` (anthropic.rs). -/
structure MessageEvent where
  type : MessageEventType
  message : Option MessageEventResponse
  index : Option Int
  content_block : Option Content
  delta : Option Delta
  usage : Option Usage
  comment : Option String
deriving DecidableEq, Repr

/-- The `map_ok` closure of `Client::delta` (anthropic.rs lines 238-262)
applied to one decoded result: only a `ContentBlockDelta` event with a
delta carrying text yields that text; everything else — including a decode
failure — yields the empty string. -/
def extract (parse : α → Option MessageEvent) : SSE α → String
  | SSE.connected => ""
  | SSE.event data =>
      match parse data with
      | some ev =>
          match ev.type with
          | MessageEventType.contentBlockDelta =>
              match ev.delta with
              | some delta => delta.text.getD ""
              | none => ""
          | _ => ""
      | none => ""
  | SSE.comment _ => ""

/-- The stream returned by `Client::delta`: every transport item is mapped
through the closure, errors passing through unchanged. -/
def deltaStream (parse : α → Option MessageEvent)
    (events : List (Except Error (SSE α))) : List (Except Error String) :=
  events.map (fun r => r.map (extract parse))

/-- The reconnect policy configured in anthropic.rs lines 226-233. -/
def reconnectOptions : ReconnectOptions :=
  { reconnect := true
    retry_initial := false
    delaySecs := 1
    backoff_factor := 2
    delayMaxSecs := 60 }

end Anthropic

namespace Mistral

/-- `Delta` (mistral.rs). -/
structure Delta where
  role : Option String
  content : String
deriving DecidableEq, Repr

/-- `Choice` (mistral.rs). `logprobs` is an arbitrary JSON value the
adapter never consults; it is carried opaquely. -/
structure Choice where
  index : Nat
  delta : Delta
  finish_reason : Option String
  logprobs : Option Unit
deriving DecidableEq, Repr

/-- `Usage` (mistral.rs). -/
structure Usage where
  prompt_tokens : Nat
  total_tokens : Nat
  completion_tokens : Nat
deriving DecidableEq, Repr

/-- `ChatCompletionChunk` (mistral.rs). -/
structure ChatCompletionChunk where
  id : String
  object : String
  created : Nat
  model : String
  choices : List Choice
  usage : Option Usage
deriving DecidableEq, Repr

/-- The `map_ok` closure of `Client::delta` (mistral.rs lines 165-181):
a decoded chunk yields `choices[0].delta.content` unless the choice list
is empty; a decode failure yields the empty string. -/
def extract (parse : α → Option ChatCompletionChunk) : SSE α → String
  | SSE.connected => ""
  | SSE.event data =>
      match parse data with
      | some chunk =>
          match chunk.choices with
          | [] => ""
          | choice :: _ => choice.delta.content
      | none => ""
  | SSE.comment _ => ""

/-- The stream returned by `Client::delta` (mistral.rs). -/
def deltaStream (parse : α → Option ChatCompletionChunk)
    (events : List (Except Error (SSE α))) : List (Except Error String) :=
  events.map (fun r => r.map (extract parse))

/-- The reconnect policy configured in mistral.rs lines 153-160. -/
def reconnectOptions : ReconnectOptions :=
  { reconnect := true
    retry_initial := false
    delaySecs := 1
    backoff_factor := 2
    delayMaxSecs := 60 }

end Mistral

namespace Ollama

/-- `Role` (ollama.rs). -/
inductive Role
  | system
  | user
  | assistant
deriving DecidableEq, Repr

/-- `Message` (ollama.rs). -/
structure Message where
  role : Role
  content : String
deriving DecidableEq, Repr

/-- `ChatCompletionChunk` (ollama.rs). -/
structure ChatCompletionChunk where
  model : String
  message : Option Message
  done : Bool
deriving DecidableEq, Repr

/-- The `map_ok` closure of `Client::delta` (ollama.rs lines 131-150):
a decoded chunk yields its message content when a message is present and
the empty string otherwise; a decode failure yields the empty string.
The `done` flag is not consulted. -/
def extract (parse : α → Option ChatCompletionChunk) : SSE α → String
  | SSE.connected => ""
  | SSE.event data =>
      match parse data with
      | some chunk =>
          match chunk.message with
          | none => ""
          | some message => message.content
      | none => ""
  | SSE.comment _ => ""

/-- The stream returned by `Client::delta` (ollama.rs). -/
def deltaStream (parse : α → Option ChatCompletionChunk)
    (events : List (Except Error (SSE α))) : List (Except Error String) :=
  events.map (fun r => r.map (extract parse))

/-- The reconnect policy configured in ollama.rs lines 119-126. -/
def reconnectOptions : ReconnectOptions :=
  { reconnect := true
    retry_initial := false
    delaySecs := 1
    backoff_factor := 2
    delayMaxSecs := 60 }

end Ollama

/-- Modelled from the spec: the delta extractor shared shape of the
backend adapters whose library modules are absent from src/ (openai.rs,
google.rs, mistral_fim.rs). §4.2-§4.3: only the content-delta variant of a
decoded event yields text (`content` projects it, `none` for every other
variant), and a decode failure is treated as an empty fragment. -/
def specExtract {ev α : Type} (content : ev → Option String) (parse : α → Option ev) :
    SSE α → String
  | SSE.connected => ""
  | SSE.event data =>
      match parse data with
      | some e => (content e).getD ""
      | none => ""
  | SSE.comment _ => ""

/-- Modelled from the spec: the delta stream of the adapters absent from
src/, mapping transport items through the extractor as the present
adapters do. -/
def specDeltaStream {ev α : Type} (content : ev → Option String) (parse : α → Option ev)
    (events : List (Except Error (SSE α))) : List (Except Error String) :=
  events.map (fun r => r.map (specExtract content parse))

/-- Modelled from the spec: the reconnect policy of the adapters absent
from src/. §4.1: all backends use the identical policy (exponential
backoff, base 1s, factor 2, cap 60s, no immediate retry on the first
attempt). -/
def specReconnectOptions : ReconnectOptions :=
  { reconnect := true
    retry_initial := false
    delaySecs := 1
    backoff_factor := 2
    delayMaxSecs := 60 }

/-! ### Concrete sample runs -/

/-- A run whose stdout is piped (not a terminal). -/
def sampleEnvPipe : RenderEnv :=
  { isTerminal := false, highlight := fun s => "[" ++ s ++ "]", freshId := "cid1" }

/-- A run on an interactive terminal with an identity highlighter. -/
def sampleEnvTty : RenderEnv :=
  { isTerminal := true, highlight := fun s => s, freshId := "cid1" }

/-- A run on an interactive terminal with a bracketing highlighter. -/
def sampleEnvTtyH : RenderEnv :=
  { isTerminal := true, highlight := fun s => "[" ++ s ++ "]", freshId := "cid1" }

/-- Arguments with the spinner disabled (`--quiet`) and caching off. -/
def sampleArgs : Args :=
  { quiet := some true, no_cache := true, fork := false, fromArg := none
    parent := none, config_dir := none, conversation := [] }

/-- Arguments with the spinner enabled (quiet unset) and caching on. -/
def sampleArgsSpin : Args :=
  { quiet := none, no_cache := false, fork := false, fromArg := none
    parent := none, config_dir := none, conversation := [] }

/-- The non-terminal passthrough trace of a fragment sequence: each
fragment written raw, followed by a flush. -/
def nonTerminalTrace : List String → List TermCmd
  | [] => []
  | f :: rest => TermCmd.write f :: TermCmd.flush :: nonTerminalTrace rest

/-- A render state in the middle of a reply, spinner already cleared. -/
def midState : RenderState :=
  { spinner := false, previousOutput := "a\nb", accumulated := "a\nb", trace := [] }

/-- A render state at the start of a reply, spinner still showing. -/
def spinState : RenderState :=
  { spinner := true, previousOutput := "x", accumulated := "x", trace := [] }

/-- A decoded Anthropic content-block delta carrying the text "Hello". -/
def aDelta : Anthropic.Delta :=
  { type := some "text_delta", text := some "Hello"
    stop_reason := none, end_turn := none }

/-- A decoded Anthropic `ContentBlockDelta` event. -/
def aEvent : Anthropic.MessageEvent :=
  { type := Anthropic.MessageEventType.contentBlockDelta
    message := none, index := some 0, content_block := none
    delta := some aDelta, usage := none, comment := none }

/-- An Anthropic event stream: one undecodable payload, one valid delta.
The payload type is the decode result itself and the parse function is
`id`, so `none` is a payload on which decoding fails. -/
def aEvents : List (Except Error (SSE (Option Anthropic.MessageEvent))) :=
  [Except.ok (SSE.event none), Except.ok (SSE.event (some aEvent))]

/-- A decoded Mistral chunk whose first choice carries the text "B". -/
def mChunk : Mistral.ChatCompletionChunk :=
  { id := "id", object := "chat.completion.chunk", created := 0, model := "m"
    choices := [{ index := 0, delta := { role := some "assistant", content := "B" }
                  finish_reason := none, logprobs := none }]
    usage := none }

/-- A Mistral event stream: one undecodable payload, one valid chunk. -/
def mEvents : List (Except Error (SSE (Option Mistral.ChatCompletionChunk))) :=
  [Except.ok (SSE.event none), Except.ok (SSE.event (some mChunk))]

/-- A decoded Ollama chunk carrying the message content "C". -/
def oChunk : Ollama.ChatCompletionChunk :=
  { model := "m", message := some { role := Ollama.Role.assistant, content := "C" }
    done := false }

/-- An Ollama event stream: one undecodable payload, one valid chunk. -/
def oEvents : List (Except Error (SSE (Option Ollama.ChatCompletionChunk))) :=
  [Except.ok (SSE.event none), Except.ok (SSE.event (some oChunk))]

/-- A spec-modelled-adapter event stream: one undecodable payload, one
valid content-delta event carrying "D". -/
def sEvents : List (Except Error (SSE (Option (Option String)))) :=
  [Except.ok (SSE.event none), Except.ok (SSE.event (some (some "D")))]

/-- The Ollama chunk `{message:{content:"Hi"},done:false}`. -/
def hiChunk : Ollama.ChatCompletionChunk :=
  { model := "m", message := some { role := Ollama.Role.assistant, content := "Hi" }
    done := false }

/-- The Ollama chunk `{message:null,done:true}`. -/
def doneChunk : Ollama.ChatCompletionChunk :=
  { model := "m", message := none, done := true }

/-- The Ollama scenario stream of §8: a content chunk then a done chunk. -/
def doneScenario : List (Except Error (SSE (Option Ollama.ChatCompletionChunk))) :=
  [Except.ok (SSE.event (some hiChunk)), Except.ok (SSE.event (some doneChunk))]

/-! ### Helper lemmas -/

instance {ε σ : Type} [DecidableEq ε] [DecidableEq σ] : DecidableEq (Except ε σ) := fun a b =>
  match a, b with
  | Except.ok x, Except.ok y =>
      decidable_of_iff (x = y) (Iff.intro (fun h => by rw [h]) (fun h => by injection h))
  | Except.ok _, Except.error _ => Decidable.isFalse (fun h => by injection h)
  | Except.error _, Except.ok _ => Decidable.isFalse (fun h => by injection h)
  | Except.error x, Except.error y =>
      decidable_of_iff (x = y) (Iff.intro (fun h => by rw [h]) (fun h => by injection h))

theorem string_join_cons (s : String) (l : List String) :
    String.join (s :: l) = s ++ String.join l := by
  apply String.ext
  simp

theorem handle_stream_state (env : RenderEnv) (args : Args) (items : List Item) :
    (handle_stream env args items).state = (runLoop env (initState env args) items).1 := by
  simp only [handle_stream]
  rcases hr : (runLoop env (initState env args) items).2 with e | u
  · rfl
  · by_cases hc : args.no_cache <;> simp [hc]

theorem clearSpinner_accumulated (b : Bool) (s : RenderState) :
    (clearSpinner b s).accumulated = s.accumulated := by
  by_cases h : b && s.spinner <;> simp [clearSpinner, h]

theorem clearSpinner_previousOutput (b : Bool) (s : RenderState) :
    (clearSpinner b s).previousOutput = s.previousOutput := by
  by_cases h : b && s.spinner <;> simp [clearSpinner, h]

theorem processFrag_terminal_accumulated (env : RenderEnv) (s : RenderState)
    (f : String) (ht : env.isTerminal = true) :
    (processFrag env s f).accumulated = s.accumulated ++ f := by
  simp [processFrag, ht, clearSpinner_accumulated]

theorem processFrag_terminal_previousOutput (env : RenderEnv) (s : RenderState)
    (f : String) (ht : env.isTerminal = true) :
    (processFrag env s f).previousOutput = env.highlight (s.accumulated ++ f) := by
  simp [processFrag, ht, clearSpinner_accumulated]

theorem runLoop_not_terminal (env : RenderEnv) (ht : env.isTerminal = false)
    (frags : List String) :
    ∀ s : RenderState,
      runLoop env s (frags.map Item.frag) =
        ({ s with trace := s.trace ++ nonTerminalTrace frags }, Except.ok ()) := by
  induction frags with
  | nil => intro s; simp [runLoop, nonTerminalTrace]
  | cons f rest ih =>
      intro s
      simp only [List.map_cons, runLoop]
      rw [ih (processFrag env s f)]
      simp [processFrag, clearSpinner, ht, nonTerminalTrace, List.append_assoc]

theorem writtenText_nonTerminalTrace (frags : List String) :
    writtenText (nonTerminalTrace frags) = String.join frags := by
  induction frags with
  | nil => rfl
  | cons f rest ih =>
      rw [string_join_cons, ← ih]
      simp [nonTerminalTrace, writtenText]

theorem nonTerminalTrace_raw (frags : List String) :
    (nonTerminalTrace frags).all rawPassthrough = true := by
  induction frags with
  | nil => rfl
  | cons f rest ih => simp [nonTerminalTrace, rawPassthrough, ih]

theorem map_except_get {β : Type} (f : SSE β → String)
    (events : List (Except Error (SSE β))) (i : Nat) (x : SSE β)
    (h : events[i]? = some (Except.ok x)) :
    (events.map (fun r => r.map f))[i]? = some (Except.ok (f x)) := by
  rw [List.getElem?_map, h]
  rfl

theorem runLoop_terminal (env : RenderEnv) (ht : env.isTerminal = true)
    (frags : List String) :
    ∀ s : RenderState,
      (runLoop env s (frags.map Item.frag)).2 = Except.ok () ∧
      (runLoop env s (frags.map Item.frag)).1.accumulated
          = s.accumulated ++ String.join frags ∧
      (runLoop env s (frags.map Item.frag)).1.previousOutput
          = (if frags = [] then s.previousOutput
             else env.highlight (s.accumulated ++ String.join frags)) := by
  induction frags with
  | nil =>
      intro s
      refine ⟨rfl, ?_, ?_⟩ <;> simp [runLoop, String.join]
  | cons f rest ih =>
      intro s
      simp only [List.map_cons, runLoop]
      obtain ⟨h1, h2, h3⟩ := ih (processFrag env s f)
      refine ⟨h1, ?_, ?_⟩
      · rw [h2, processFrag_terminal_accumulated env s f ht, string_join_cons,
          String.append_assoc]
      · rw [h3]
        rcases rest with _ | ⟨g, rest⟩
        · simp [processFrag_terminal_previousOutput env s f ht, string_join_cons,
            String.join, String.append_empty]
        · simp [processFrag_terminal_accumulated env s f ht, string_join_cons,
            String.append_assoc]

/-! ### Claims -/

/-- C1: when stdout is not an interactive terminal, the bytes the render
loop writes are exactly the concatenation of the yielded fragments — raw
writes and flushes only, with no cursor movement, highlighting, or spinner
interaction interleaved. -/
theorem nonterminal_passthrough (env : RenderEnv) (args : Args)
    (frags : List String) (ht : env.isTerminal = false) :
    writtenText (handle_stream env args (frags.map Item.frag)).state.trace
        = String.join frags ∧
    ((handle_stream env args (frags.map Item.frag)).state.trace.all rawPassthrough)
        = true := by
  rw [handle_stream_state, runLoop_not_terminal env ht frags (initState env args)]
  constructor
  · simp [initState, writtenText_nonTerminalTrace]
  · simp [initState, nonTerminalTrace_raw]

theorem nonterminal_passthrough_witness :
    writtenText (handle_stream sampleEnvPipe sampleArgs
        (["Hello", " world"].map Item.frag)).state.trace
      = String.join ["Hello", " world"] ∧
    ((handle_stream sampleEnvPipe sampleArgs
        (["Hello", " world"].map Item.frag)).state.trace.all rawPassthrough) = true :=
  nonterminal_passthrough sampleEnvPipe sampleArgs ["Hello", " world"] rfl

/-- C2: on an interactive terminal, after processing fragments F1..Fn the
stored previous rendered text equals the highlighter applied to the whole
accumulated buffer (the concatenation of F1..Fn), and each single
iteration re-establishes this invariant by recomputing the rendering from
scratch over the whole buffer. -/
theorem interactive_render_invariant (env : RenderEnv) (args : Args)
    (frags : List String) (ht : env.isTerminal = true) (hne : frags ≠ []) :
    (handle_stream env args (frags.map Item.frag)).state.previousOutput
        = env.highlight (String.join frags) ∧
    (handle_stream env args (frags.map Item.frag)).state.accumulated
        = String.join frags ∧
    ∀ (s : RenderState) (t : String),
      (processFrag env s t).previousOutput
        = env.highlight ((processFrag env s t).accumulated) := by
  obtain ⟨h1, h2, h3⟩ := runLoop_terminal env ht frags (initState env args)
  rw [handle_stream_state]
  refine ⟨?_, ?_, ?_⟩
  · rw [h3]
    simp [hne, initState]
  · rw [h2]
    simp [initState]
  · intro s t
    rw [processFrag_terminal_previousOutput env s t ht,
      processFrag_terminal_accumulated env s t ht]

theorem interactive_render_invariant_witness :
    (handle_stream sampleEnvTtyH sampleArgs (["ab", "c"].map Item.frag)).state.previousOutput
        = sampleEnvTtyH.highlight (String.join ["ab", "c"]) ∧
    (handle_stream sampleEnvTtyH sampleArgs (["ab", "c"].map Item.frag)).state.accumulated
        = String.join ["ab", "c"] ∧
    ∀ (s : RenderState) (t : String),
      (processFrag sampleEnvTtyH s t).previousOutput
        = sampleEnvTtyH.highlight ((processFrag sampleEnvTtyH s t).accumulated) :=
  interactive_render_invariant sampleEnvTtyH sampleArgs ["ab", "c"] rfl (by decide)

/-- C3: on every interactive render step the freshly highlighted output is
printed from column 0 after skipping `count - 1` of its lines, where
`count` is the line count of the previously rendered text, except that
nothing is skipped when that count is zero — so the last previously shown
line is rewritten. -/
theorem render_skips_settled_lines (env : RenderEnv) (s : RenderState)
    (text : String) (ht : env.isTerminal = true) :
    (processFrag env s text).trace =
      s.trace ++ (if s.spinner then spinnerClearTrace else []) ++
        [TermCmd.moveToColumn 0,
         TermCmd.write (String.intercalate "\n"
           ((rustLines (env.highlight (s.accumulated ++ text))).drop
             (if (rustLines s.previousOutput).length = 0 then 0
              else (rustLines s.previousOutput).length - 1))),
         TermCmd.flush] := by
  by_cases hs : s.spinner <;>
    simp [processFrag, clearSpinner, skipCount, ht, hs, List.append_assoc]

theorem render_skips_settled_lines_witness :
    (processFrag sampleEnvTty midState "c").trace =
      [TermCmd.moveToColumn 0, TermCmd.write "bc", TermCmd.flush] :=
  (render_skips_settled_lines sampleEnvTty midState "c" rfl).trans (by decide)

/-- C4 counterexample: processing an empty fragment on an interactive
terminal with the spinner still showing stops the spinner and writes to
the terminal, so the spinner state and the terminal output are not left
unchanged. -/
theorem empty_fragment_not_inert_cex :
    initialSpinner sampleArgsSpin.quiet sampleEnvTty.isTerminal = true ∧
    (handle_stream sampleEnvTty sampleArgsSpin [Item.frag ""]).state.spinner = false ∧
    (handle_stream sampleEnvTty sampleArgsSpin [Item.frag ""]).state.trace ≠ [] := by
  decide

/-- C4 (amended): an empty fragment on an interactive terminal is processed
like any other fragment — the spinner, when still present, is stopped and
cleared, and a re-render is emitted rewriting from the last previously
rendered line; the accumulated byte buffer is unchanged and the previous
rendered text becomes the highlighter applied to that unchanged buffer. -/
theorem empty_fragment_processed_like_any (env : RenderEnv) (s : RenderState)
    (ht : env.isTerminal = true) :
    (processFrag env s "").accumulated = s.accumulated ∧
    (processFrag env s "").spinner = false ∧
    (processFrag env s "").previousOutput = env.highlight s.accumulated ∧
    (processFrag env s "").trace =
      s.trace ++ (if s.spinner then spinnerClearTrace else []) ++
        [TermCmd.moveToColumn 0,
         TermCmd.write (String.intercalate "\n"
           ((rustLines (env.highlight s.accumulated)).drop (skipCount s.previousOutput))),
         TermCmd.flush] := by
  by_cases hs : s.spinner <;>
    simp [processFrag, clearSpinner, ht, hs, String.append_empty, List.append_assoc]

theorem empty_fragment_processed_like_any_witness :
    (processFrag sampleEnvTty spinState "").accumulated = spinState.accumulated ∧
    (processFrag sampleEnvTty spinState "").spinner = false ∧
    (processFrag sampleEnvTty spinState "").previousOutput
        = sampleEnvTty.highlight spinState.accumulated ∧
    (processFrag sampleEnvTty spinState "").trace =
      spinState.trace ++ (if spinState.spinner then spinnerClearTrace else []) ++
        [TermCmd.moveToColumn 0,
         TermCmd.write (String.intercalate "\n"
           ((rustLines (sampleEnvTty.highlight spinState.accumulated)).drop
             (skipCount spinState.previousOutput))),
         TermCmd.flush] :=
  empty_fragment_processed_like_any sampleEnvTty spinState rfl

/-- C5: for every backend adapter, a decode failure on a single event does
not terminate the delta stream and produces no error — the undecodable
event maps to an empty fragment in place, and a valid content event at any
position (in particular after a malformed one) is still delivered as its
fragment. The openai/google/mistral_fim adapters are spec-modelled. -/
theorem decode_failure_recovery
    {α₁ α₂ α₃ α₄ ev : Type}
    (parseA : α₁ → Option Anthropic.MessageEvent)
    (eventsA : List (Except Error (SSE α₁)))
    (parseM : α₂ → Option Mistral.ChatCompletionChunk)
    (eventsM : List (Except Error (SSE α₂)))
    (parseO : α₃ → Option Ollama.ChatCompletionChunk)
    (eventsO : List (Except Error (SSE α₃)))
    (content : ev → Option String)
    (parseS : α₄ → Option ev)
    (eventsS : List (Except Error (SSE α₄))) :
    ((Anthropic.deltaStream parseA eventsA).length = eventsA.length ∧
      (∀ (i : Nat) (d : α₁),
        eventsA[i]? = some (Except.ok (SSE.event d)) → parseA d = none →
        (Anthropic.deltaStream parseA eventsA)[i]?
          = some (Except.ok "" : Except Error String)) ∧
      (∀ (i : Nat) (d : α₁) (e : Anthropic.MessageEvent) (dl : Anthropic.Delta)
          (t : String),
        eventsA[i]? = some (Except.ok (SSE.event d)) →
        parseA d = some e →
        e.type = Anthropic.MessageEventType.contentBlockDelta →
        e.delta = some dl → dl.text = some t →
        (Anthropic.deltaStream parseA eventsA)[i]?
          = some (Except.ok t : Except Error String))) ∧
    ((Mistral.deltaStream parseM eventsM).length = eventsM.length ∧
      (∀ (i : Nat) (d : α₂),
        eventsM[i]? = some (Except.ok (SSE.event d)) → parseM d = none →
        (Mistral.deltaStream parseM eventsM)[i]?
          = some (Except.ok "" : Except Error String)) ∧
      (∀ (i : Nat) (d : α₂) (chunk : Mistral.ChatCompletionChunk)
          (choice : Mistral.Choice) (rest : List Mistral.Choice),
        eventsM[i]? = some (Except.ok (SSE.event d)) →
        parseM d = some chunk → chunk.choices = choice :: rest →
        (Mistral.deltaStream parseM eventsM)[i]?
          = some (Except.ok choice.delta.content : Except Error String))) ∧
    ((Ollama.deltaStream parseO eventsO).length = eventsO.length ∧
      (∀ (i : Nat) (d : α₃),
        eventsO[i]? = some (Except.ok (SSE.event d)) → parseO d = none →
        (Ollama.deltaStream parseO eventsO)[i]?
          = some (Except.ok "" : Except Error String)) ∧
      (∀ (i : Nat) (d : α₃) (chunk : Ollama.ChatCompletionChunk)
          (msg : Ollama.Message),
        eventsO[i]? = some (Except.ok (SSE.event d)) →
        parseO d = some chunk → chunk.message = some msg →
        (Ollama.deltaStream parseO eventsO)[i]?
          = some (Except.ok msg.content : Except Error String))) ∧
    ((specDeltaStream content parseS eventsS).length = eventsS.length ∧
      (∀ (i : Nat) (d : α₄),
        eventsS[i]? = some (Except.ok (SSE.event d)) → parseS d = none →
        (specDeltaStream content parseS eventsS)[i]?
          = some (Except.ok "" : Except Error String)) ∧
      (∀ (i : Nat) (d : α₄) (e : ev) (t : String),
        eventsS[i]? = some (Except.ok (SSE.event d)) →
        parseS d = some e → content e = some t →
        (specDeltaStream content parseS eventsS)[i]?
          = some (Except.ok t : Except Error String))) := by
  refine ⟨⟨?_, ?_, ?_⟩, ⟨?_, ?_, ?_⟩, ⟨?_, ?_, ?_⟩, ⟨?_, ?_, ?_⟩⟩
  · simp [Anthropic.deltaStream]
  · intro i d h1 h2
    have hx := map_except_get (Anthropic.extract parseA) eventsA i _ h1
    simpa [Anthropic.deltaStream, Anthropic.extract, h2] using hx
  · intro i d e dl t h1 h2 h3 h4 h5
    have hx := map_except_get (Anthropic.extract parseA) eventsA i _ h1
    simpa [Anthropic.deltaStream, Anthropic.extract, h2, h3, h4, h5] using hx
  · simp [Mistral.deltaStream]
  · intro i d h1 h2
    have hx := map_except_get (Mistral.extract parseM) eventsM i _ h1
    simpa [Mistral.deltaStream, Mistral.extract, h2] using hx
  · intro i d chunk choice rest h1 h2 h3
    have hx := map_except_get (Mistral.extract parseM) eventsM i _ h1
    simpa [Mistral.deltaStream, Mistral.extract, h2, h3] using hx
  · simp [Ollama.deltaStream]
  · intro i d h1 h2
    have hx := map_except_get (Ollama.extract parseO) eventsO i _ h1
    simpa [Ollama.deltaStream, Ollama.extract, h2] using hx
  · intro i d chunk msg h1 h2 h3
    have hx := map_except_get (Ollama.extract parseO) eventsO i _ h1
    simpa [Ollama.deltaStream, Ollama.extract, h2, h3] using hx
  · simp [specDeltaStream]
  · intro i d h1 h2
    have hx := map_except_get (specExtract content parseS) eventsS i _ h1
    simpa [specDeltaStream, specExtract, h2] using hx
  · intro i d e t h1 h2 h3
    have hx := map_except_get (specExtract content parseS) eventsS i _ h1
    simpa [specDeltaStream, specExtract, h2, h3] using hx

theorem decode_failure_recovery_witness :
    (Anthropic.deltaStream id aEvents)[0]? = some (Except.ok "") ∧
    (Anthropic.deltaStream id aEvents)[1]? = some (Except.ok "Hello") ∧
    (Mistral.deltaStream id mEvents)[0]? = some (Except.ok "") ∧
    (Mistral.deltaStream id mEvents)[1]? = some (Except.ok "B") ∧
    (Ollama.deltaStream id oEvents)[0]? = some (Except.ok "") ∧
    (Ollama.deltaStream id oEvents)[1]? = some (Except.ok "C") ∧
    (specDeltaStream id id sEvents)[0]? = some (Except.ok "") ∧
    (specDeltaStream id id sEvents)[1]? = some (Except.ok "D") := by
  obtain ⟨hA, hM, hO, hS⟩ :=
    decode_failure_recovery id aEvents id mEvents id oEvents id id sEvents
  exact ⟨hA.2.1 0 none rfl rfl,
    hA.2.2 1 (some aEvent) aEvent aDelta "Hello" rfl rfl rfl rfl rfl,
    hM.2.1 0 none rfl rfl,
    hM.2.2 1 (some mChunk) mChunk _ [] rfl rfl rfl,
    hO.2.1 0 none rfl rfl,
    hO.2.2 1 (some oChunk) oChunk _ rfl rfl rfl,
    hS.2.1 0 none rfl rfl,
    hS.2.2 1 (some (some "D")) (some "D") "D" rfl rfl rfl⟩

/-- C6: every backend adapter configures the identical reconnect policy —
retry on disconnect, no retry of the initial connection, initial delay 1
second, backoff factor 2, maximum delay 60 seconds — so the delay before
reconnect attempt k is min(1s·2^(k-1), 60s), uniformly across providers
(the openai/google/mistral_fim adapters are spec-modelled). -/
theorem uniform_reconnect_policy (k : Nat) (hk : 1 ≤ k) :
    Anthropic.reconnectOptions = specReconnectOptions ∧
    Mistral.reconnectOptions = specReconnectOptions ∧
    Ollama.reconnectOptions = specReconnectOptions ∧
    specReconnectOptions =
      { reconnect := true, retry_initial := false, delaySecs := 1
        backoff_factor := 2, delayMaxSecs := 60 } ∧
    delayBeforeAttempt Anthropic.reconnectOptions k = min (2 ^ (k - 1)) 60 := by
  refine ⟨rfl, rfl, rfl, rfl, ?_⟩
  simp [delayBeforeAttempt, Anthropic.reconnectOptions]

theorem uniform_reconnect_policy_witness :
    1 ≤ 3 ∧ delayBeforeAttempt Anthropic.reconnectOptions 3 = min (2 ^ (3 - 1)) 60 :=
  ⟨by decide, (uniform_reconnect_policy 3 (by decide)).2.2.2.2⟩

/-- C7 counterexample: in the Ollama scenario the done:true event does not
terminate the stream — it is mapped to an empty fragment, so the delta
stream is not `[Delta "Hi"]` followed by end. -/
theorem ollama_done_not_end_cex :
    (Ollama.deltaStream id doneScenario)[1]? = some (Except.ok "") ∧
    Ollama.deltaStream id doneScenario ≠ [Except.ok "Hi"] := by
  decide

/-- C7 (amended): the Ollama scenario stream
`{message:{content:"Hi"},done:false}` then `{message:null,done:true}`
yields `Delta("Hi")` followed by `Delta("")`: the adapter never consults
the done flag, mapping the done event to an empty fragment, and the stream
ends only when the transport closes afterwards. -/
theorem ollama_done_yields_empty_delta :
    Ollama.deltaStream id doneScenario = [Except.ok "Hi", Except.ok ""] := by
  decide

/-- C8 (code_bug evidence): on a piped (non-interactive) run the
`continue` of the passthrough path skips accumulation, so after stream
completion the assistant message handed to the caching layer is empty
instead of the trimmed concatenation of the received fragments. -/
theorem piped_run_caches_empty_reply :
    (handle_stream sampleEnvPipe sampleArgsSpin [Item.frag "Hi"]).conversation
        = [{ role := ConversationRole.assistant, content := "" }] ∧
    (handle_stream sampleEnvPipe sampleArgsSpin [Item.frag "Hi"]).cacheWrite
        = some "~/.config/llm-stream/cache/cid1.toml" ∧
    rustTrim (String.join ["Hi"]) = "Hi" ∧
    ("" : String) ≠ "Hi" := by
  decide

theorem runLoop_eof (env : RenderEnv) (rest : List Item) (frags : List String) :
    ∀ s : RenderState,
      runLoop env s (frags.map Item.frag ++
          Item.err (Error.eventsourceClient EventsourceError.eof) :: rest)
        = runLoop env s (frags.map Item.frag) := by
  induction frags with
  | nil => intro s; rfl
  | cons f r ih =>
      intro s
      simp only [List.map_cons, List.cons_append, runLoop]
      exact ih _

/-- C9: a transport error signalling clean end-of-stream (Eof) is treated
identically to end-of-stream: the whole run — loop exit, success result
and completion-time caching — equals the run of the same fragments that
simply ends there. -/
theorem clean_eof_is_end (env : RenderEnv) (args : Args) (frags : List String)
    (rest : List Item) :
    handle_stream env args (frags.map Item.frag ++
        Item.err (Error.eventsourceClient EventsourceError.eof) :: rest)
      = handle_stream env args (frags.map Item.frag) := by
  simp only [handle_stream, runLoop_eof env rest frags]

theorem runLoop_error (env : RenderEnv) (e : Error)
    (he : e ≠ Error.eventsourceClient EventsourceError.eof) (rest : List Item)
    (frags : List String) :
    ∀ s : RenderState,
      (runLoop env s (frags.map Item.frag ++ Item.err e :: rest)).2
        = Except.error e := by
  induction frags with
  | nil =>
      intro s
      rcases e with es | m
      · rcases es with _ | m
        · exact absurd rfl he
        · rfl
      · rfl
  | cons f r ih =>
      intro s
      simp only [List.map_cons, List.cons_append, runLoop]
      exact ih _

/-- C10: a non-Eof transport error aborts `handle_stream` before caching:
the returned result is that error, no cache file is written and no
assistant message is appended to the conversation, even when fragments had
already been received and rendered. -/
theorem transport_error_skips_caching (env : RenderEnv) (args : Args)
    (frags : List String) (rest : List Item) (e : Error)
    (he : e ≠ Error.eventsourceClient EventsourceError.eof) :
    (handle_stream env args (frags.map Item.frag ++ Item.err e :: rest)).result
        = Except.error e ∧
    (handle_stream env args (frags.map Item.frag ++ Item.err e :: rest)).cacheWrite
        = none ∧
    (handle_stream env args (frags.map Item.frag ++ Item.err e :: rest)).conversation
        = args.conversation := by
  have h2 := runLoop_error env e he rest frags (initState env args)
  simp only [handle_stream]
  rw [h2]
  exact ⟨rfl, rfl, rfl⟩

theorem transport_error_skips_caching_witness :
    (handle_stream sampleEnvTty sampleArgsSpin
        (["Hi"].map Item.frag ++ Item.err (Error.otherError "boom") :: [])).result
        = Except.error (Error.otherError "boom") ∧
    (handle_stream sampleEnvTty sampleArgsSpin
        (["Hi"].map Item.frag ++ Item.err (Error.otherError "boom") :: [])).cacheWrite
        = none ∧
    (handle_stream sampleEnvTty sampleArgsSpin
        (["Hi"].map Item.frag ++ Item.err (Error.otherError "boom") :: [])).conversation
        = sampleArgsSpin.conversation :=
  transport_error_skips_caching sampleEnvTty sampleArgsSpin ["Hi"] []
    (Error.otherError "boom") (by decide)

end LlmStream
